import Mathlib

/-!
A formal model of `oerplib/connector.py`.

The module provides `get_connector(server, port, protocol)` returning one of
two connector classes (`_ConnectorXMLRPC`, `_ConnectorNetRPC`), each
implementing `login`, `execute`, `exec_workflow` and `report`, plus five
exception classes.  Remote servers and the two transport libraries
(`xmlrpclib` and the external `netrpc` module) are modelled as oracles:
functions supplied by the caller that either return a value or raise one of
the exception kinds the libraries can raise.  Effects that the source
performs (status-poll calls, `time.sleep(1)` calls, `_request` tuples sent,
socket connect/send/receive/disconnect events) are made observable by
returning them explicitly.
-/

namespace Oerplib

/-- Python values passed over the RPC wire (arguments and results of the
remote calls): integers, strings, booleans, lists and string-keyed dicts. -/
inductive PyData : Type
  | int (n : Int)
  | str (s : String)
  | bool (b : Bool)
  | list (xs : List PyData)
  | dict (kvs : List (String × PyData))

/-- Port values accepted by the connector constructor: a Python int or str.
`int(port)` on these raises `ValueError` exactly when a str does not parse
as an integer; other Python types (which would raise `TypeError`, uncaught
by the constructor's `except ValueError`) are outside this model, matching
the spec's "port: integer-like". -/
inductive PyVal : Type
  | int (n : Int)
  | str (s : String)

/-- Python `str()` of a port value, as interpolated by `str.format`. -/
def pyStr : PyVal → String
  | .int n => toString n
  | .str s => s

/-- Python's notion of whitespace stripped by `int()` on strings. -/
def isPySpace (c : Char) : Bool :=
  c = ' ' || c = '\t' || c = '\n' || c = '\r' || c = '\x0b' || c = '\x0c'

/-- Strip leading and trailing whitespace from a character list. -/
def stripChars (l : List Char) : List Char :=
  ((l.dropWhile isPySpace).reverse.dropWhile isPySpace).reverse

/-- Numeric value of a list of decimal digits. -/
def digitsVal (l : List Char) : Nat :=
  l.foldl (fun a c => a * 10 + (c.toNat - 48)) 0

/-- Python `int(s)` on a string: optional surrounding whitespace, optional
sign, then a nonempty run of decimal digits; `none` models `ValueError`. -/
def pyStrToInt (s : String) : Option Int :=
  match stripChars s.data with
  | [] => none
  | c :: rest =>
    if c = '+' then
      if rest ≠ [] && rest.all Char.isDigit then some (digitsVal rest) else none
    else if c = '-' then
      if rest ≠ [] && rest.all Char.isDigit then some (-(digitsVal rest : Int)) else none
    else if (c :: rest).all Char.isDigit then some (digitsVal (c :: rest))
    else none

/-- Python `int(port)`: identity on ints, string parsing on strs. -/
def pyToInt : PyVal → Option Int
  | .int n => some n
  | .str s => pyStrToInt s

/-- The five exception classes defined at the bottom of `connector.py`. -/
inductive OerpError : Type
  | connectorError (msg : String)
  | loginError (msg : String)
  | executeError (msg : String)
  | execWorkflowError (msg : String)
  | execReportError (msg : String)

/-- Python exceptions that can be raised by the remote-call layers used in
`connector.py`: `xmlrpclib.Fault` (remote fault), `socket.error`
(socket-level transport failure leaking through `xmlrpclib`),
`netrpc.NetRPCError` (the error type of the external netrpc transport), and
`AttributeError` (reading the `database` attribute before `login` set it).
HTTP-protocol-level errors (`xmlrpclib.ProtocolError`) are outside the
model. -/
inductive PyExc : Type
  | fault (faultCode faultString : String)
  | socketError (strerror : String)
  | netRPCError (msg : String)
  | attributeError (name : String)

/-- `isinstance(exc, xmlrpclib.Fault)`. -/
def PyExc.isFault : PyExc → Bool
  | .fault _ _ => true
  | _ => false

/-- `isinstance(exc, socket.error)`: `socket.error` is an `IOError`
subclass, unrelated to `xmlrpclib.Error`. -/
def PyExc.isSocketError : PyExc → Bool
  | .socketError _ => true
  | _ => false

/-- `isinstance(exc, xmlrpclib.Error)`: of the modelled exceptions only
`Fault` subclasses `xmlrpclib.Error`; `socket.error`, `NetRPCError` and
`AttributeError` do not. -/
def PyExc.isXmlrpcError : PyExc → Bool
  | .fault _ _ => true
  | _ => false

/-- The `faultCode` attribute (meaningful on `Fault` only). -/
def PyExc.faultCode : PyExc → String
  | .fault c _ => c
  | _ => ""

/-- The `faultString` attribute (meaningful on `Fault` only). -/
def PyExc.faultString : PyExc → String
  | .fault _ s => s
  | _ => ""

/-- The `strerror` attribute (meaningful on `socket.error` only). -/
def PyExc.strerror : PyExc → String
  | .socketError s => s
  | _ => ""

/-- Python `repr()` of a string (as applied to `exc.faultCode` in the
XMLRPC `login` handler); quoting modelled without escape handling. -/
def pyRepr (s : String) : String := "'" ++ s ++ "'"

/-- Outcome of calling a connector method: normal return, a typed oerplib
exception raised, or a Python exception propagating unwrapped past the
method's `except` clauses. -/
inductive CallResult (α : Type) : Type
  | ok (v : α)
  | typed (e : OerpError)
  | unwrapped (e : PyExc)

/-- The two registered connector classes. -/
inductive Variant : Type
  | xmlrpc
  | netrpc

/-- A connector instance: server, port (stored as given, not converted),
and the `database` attribute, absent (`none`) until `login` first sets it. -/
structure Connector : Type where
  variant : Variant
  server : String
  port : PyVal
  database : Option String

/-- `_Connector.__init__(server, port)`: `int(port)` is attempted; a
`ValueError` becomes a `ConnectorError`, otherwise the original `port`
value is stored. -/
def Connector.init (variant : Variant) (server : String) (port : PyVal) :
    Except OerpError Connector :=
  match pyToInt port with
  | none => .error (.connectorError
      ("The port '" ++ pyStr port ++ "' is invalid. An integer is required."))
  | some _ => .ok { variant := variant, server := server, port := port, database := none }

/-- The message raised by `get_connector` for an unregistered protocol:
`error.format(protocol, connectors.keys())`. -/
def badProtocolMsg (protocol : String) : String :=
  "The protocol '" ++ protocol ++
    "' is not supported. Please choose a protocol among these ones: ['xmlrpc', 'netrpc']"

/-- `get_connector(server, port, protocol)`: membership test in the
`{'xmlrpc': ..., 'netrpc': ...}` dict, then construction of the selected
class (written here as a direct dispatch, equivalent to the source's
membership test followed by `connectors[protocol](server, port)`). -/
def get_connector (server : String) (port : PyVal) (protocol : String) :
    Except OerpError Connector :=
  if protocol = "xmlrpc" then Connector.init .xmlrpc server port
  else if protocol = "netrpc" then Connector.init .netrpc server port
  else .error (.connectorError (badProtocolMsg protocol))

/-- The status payload returned by `report_get`: a mapping whose `'state'`
entry is truthiness-tested (modelled as a Bool); the remaining entries
(rendered report bytes and metadata) are kept opaque. -/
structure Payload : Type where
  state : Bool
  data : String

/-- Instrumented result of a `report` call: the outcome, the number of
status-poll (`report_get`) calls performed, and the number of
`time.sleep(1)` calls performed. -/
structure LoopOut : Type where
  result : CallResult Payload
  polls : Nat
  sleeps : Nat

/-- Message of the `ExecReportError` raised when a poll's `except` clause
fires (source: "Unknown error occurred during the download of the report."). -/
def downloadErrMsg : String :=
  "Unknown error occurred during the download of the report."

/-- Message of the `ExecReportError` raised when the attempt counter
exceeds 200. -/
def timeoutMsg : String :=
  "Download time exceeded, the operation has been canceled."

/-- Message of every `ExecWorkflowError`. -/
def workflowErrMsg : String := "Workflow query has failed."

/-- The polling loop shared verbatim by both `report` implementations
(`while not state: ...`).  `report_get i` is the result of the i-th
status-poll call (the oracle is indexed by call number because the remote
job advances between calls); `handleErr` is the variant's `except` clause
around the poll.  Mirrors the source statement for statement: poll; on a
caught exception raise the generic `ExecReportError`; read `state`; if
falsy, sleep one interval and increment `attempt`; if `attempt > 200`
raise the timeout `ExecReportError`; on truthy `state` fall out of the
loop and return the payload. -/
def reportPollLoop {ε : Type} (handleErr : ε → CallResult Payload)
    (report_get : Nat → Except ε Payload) (i attempt : Nat) : LoopOut :=
  match report_get i with
  | .error exc => ⟨handleErr exc, 1, 0⟩
  | .ok pdf_data =>
    if pdf_data.state then
      if attempt > 200 then ⟨.typed (.execReportError timeoutMsg), 1, 0⟩
      else ⟨.ok pdf_data, 1, 0⟩
    else
      if h : attempt + 1 > 200 then ⟨.typed (.execReportError timeoutMsg), 1, 1⟩
      else
        let r := reportPollLoop handleErr report_get (i + 1) (attempt + 1)
        ⟨r.result, r.polls + 1, r.sleeps + 1⟩
termination_by 201 - attempt
decreasing_by simp_wf; omega

namespace ConnectorXMLRPC

/-!
Model of `_ConnectorXMLRPC`.  The three `xmlrpclib.ServerProxy` handles are
modelled as oracles mapping the positional-argument list of the remote call
to its outcome.  The connector's `self` carries the `database` attribute;
reading it while unset raises `AttributeError`, which flows into the same
`except` dispatch as exceptions from the remote call itself (in the source
`self.database` is read inside each `try` block).
-/

/-- The `except` clause wrapped around each status poll of
`_ConnectorXMLRPC.report` (lines 156-161): `except xmlrpclib.Error` raises
the generic download `ExecReportError`; anything else propagates. -/
def pollExcept (exc : Oerplib.PyExc) : CallResult Payload :=
  if exc.isXmlrpcError then .typed (.execReportError downloadErrMsg)
  else .unwrapped exc

/-- `_ConnectorXMLRPC.login(database, user, passwd)`: assigns
`self.database` before the remote call, then calls
`sock_common.login(self.database, user, passwd)`; `xmlrpclib.Fault` becomes
`LoginError(repr(exc.faultCode))`, `socket.error` becomes
`LoginError(exc.strerror)`.  Returns the call outcome together with the
updated connector. -/
def login (self : Connector)
    (sock_common_login : List PyData → Except PyExc PyData)
    (database user passwd : String) : CallResult PyData × Connector :=
  let self' := { self with database := some database }
  (match sock_common_login [.str database, .str user, .str passwd] with
   | .ok user_id => .ok user_id
   | .error exc =>
     if exc.isFault then .typed (.loginError (pyRepr exc.faultCode))
     else if exc.isSocketError then .typed (.loginError exc.strerror)
     else .unwrapped exc,
   self')

/-- `_ConnectorXMLRPC.execute(uid, upasswd, osv_name, method, *args)`:
calls `sock_object.execute(self.database, uid, upasswd, osv_name, method,
*args)` with `except socket.error`, `except xmlrpclib.Fault`, `except
xmlrpclib.Error` in that order. -/
def execute (self : Connector)
    (sock_object_execute : List PyData → Except PyExc PyData)
    (uid upasswd osv_name method : PyData) (args : List PyData) :
    CallResult PyData :=
  let res : Except PyExc PyData :=
    match self.database with
    | none => .error (.attributeError "database")
    | some db => sock_object_execute ([.str db, uid, upasswd, osv_name, method] ++ args)
  match res with
  | .ok v => .ok v
  | .error exc =>
    if exc.isSocketError then .typed (.executeError exc.strerror)
    else if exc.isFault then .typed (.executeError exc.faultCode)
    else if exc.isXmlrpcError then
      .typed (.executeError
        ((if exc.faultCode = "" then "Unknown error" else exc.faultCode)
          ++ ": " ++ exc.faultString))
    else .unwrapped exc

/-- `_ConnectorXMLRPC.exec_workflow(uid, upasswd, osv_name, signal,
obj_id)`: calls `sock_object.exec_workflow(self.database, ...)` under a
bare `except Exception`, so every failure (including the `AttributeError`
from an unset `database`) becomes the fixed `ExecWorkflowError`. -/
def exec_workflow (self : Connector)
    (sock_object_exec_workflow : List PyData → Except PyExc PyData)
    (uid upasswd osv_name signal obj_id : PyData) : CallResult PyData :=
  let res : Except PyExc PyData :=
    match self.database with
    | none => .error (.attributeError "database")
    | some db => sock_object_exec_workflow [.str db, uid, upasswd, osv_name, signal, obj_id]
  match res with
  | .ok v => .ok v
  | .error _ => .typed (.execWorkflowError workflowErrMsg)

/-- `_ConnectorXMLRPC.report(uid, upasswd, report_name, osv_name, obj_id,
report_type='pdf', context=None)`: defaults `context` to `{}`, builds the
`data` dict, submits via `sock_report.report(self.database, uid, upasswd,
report_name, [obj_id], data, context)` under `except xmlrpclib.Error`
(which raises `ExecReportError(exc.faultCode)`), then runs the polling
loop with `sock_report.report_get` (oracle indexed by poll number). -/
def report (self : Connector)
    (sock_report_report : List PyData → Except PyExc PyData)
    (sock_report_report_get : Nat → Except PyExc Payload)
    (uid upasswd report_name osv_name obj_id report_type : PyData)
    (context : Option PyData) : LoopOut :=
  let ctx := context.getD (PyData.dict [])
  let data := PyData.dict [("model", osv_name), ("id", obj_id), ("report_type", report_type)]
  let submit : Except PyExc PyData :=
    match self.database with
    | none => .error (.attributeError "database")
    | some db =>
      sock_report_report [.str db, uid, upasswd, report_name, .list [obj_id], data, ctx]
  match submit with
  | .error exc =>
    if exc.isXmlrpcError then ⟨.typed (.execReportError exc.faultCode), 0, 0⟩
    else ⟨.unwrapped exc, 0, 0⟩
  | .ok _report_id => reportPollLoop pollExcept sock_report_report_get 0 0

end ConnectorXMLRPC

namespace ConnectorNetRPC

/-!
Model of `_ConnectorNetRPC`.  The netrpc transport is the external
collaborator of the spec; its calls fail only with `netrpc.NetRPCError`,
modelled as `Except String` where the `String` is `unicode(exc)`.  Each
operation records the argument tuples it passes to `self._request`, and
`request` itself models one `_request` body as a sequence of
connect/send/receive/disconnect events against a transport double.
-/

/-- Transport double for one `_request` cycle: whether `connect` raises,
whether `send` raises, and what `receive` does. -/
structure NetTransport : Type where
  connectErr : Option String
  sendErr : Option String
  receiveResult : Except String PyData

/-- Observable transport events of a `_request` body. -/
inductive NetEvent : Type
  | connect (server : String) (port : PyVal)
  | send (msg : List PyData)
  | receive
  | disconnect

/-- Whether a trace contains a `disconnect` event. -/
def hasDisconnect : List NetEvent → Bool
  | [] => false
  | .disconnect :: _ => true
  | _ :: rest => hasDisconnect rest

/-- `_ConnectorNetRPC._request(service, method, *args)`: connect to
`(self.server, self.port)`, send the tuple `(service, method) + args`,
receive, disconnect, return the received value.  There is no `finally`:
when a step raises, the later steps — including `disconnect` — do not
run. -/
def request (t : NetTransport) (server : String) (port : PyVal)
    (service method : String) (args : List PyData) :
    Except String PyData × List NetEvent :=
  match t.connectErr with
  | some e => (.error e, [.connect server port])
  | none =>
    let msg := PyData.str service :: PyData.str method :: args
    match t.sendErr with
    | some e => (.error e, [.connect server port, .send msg])
    | none =>
      match t.receiveResult with
      | .error e => (.error e, [.connect server port, .send msg, .receive])
      | .ok result => (.ok result, [.connect server port, .send msg, .receive, .disconnect])

/-- `_ConnectorNetRPC.login(database, user, passwd)`: assigns
`self.database` before the `try`, then
`self._request('common', 'login', self.database, user, passwd)`;
`netrpc.NetRPCError` becomes `LoginError(unicode(exc))`.  `rpc` is the
outcome of `_request` on the sent tuple; the sent tuple is returned. -/
def login (self : Connector) (rpc : List PyData → Except String PyData)
    (database user passwd : String) :
    CallResult PyData × Connector × List (List PyData) :=
  let self' := { self with database := some database }
  let msg : List PyData := [.str "common", .str "login", .str database, .str user, .str passwd]
  (match rpc msg with
   | .ok v => .ok v
   | .error exc => .typed (.loginError exc),
   self', [msg])

/-- `_ConnectorNetRPC.execute(uid, upasswd, osv_name, method, *args)`:
`self._request('object', 'execute', self.database, uid, upasswd, osv_name,
method, *args)`; `netrpc.NetRPCError` becomes `ExecuteError(unicode(exc))`.
Reading the unset `database` attribute raises before any tuple is sent. -/
def execute (self : Connector) (rpc : List PyData → Except String PyData)
    (uid upasswd osv_name method : PyData) (args : List PyData) :
    CallResult PyData × List (List PyData) :=
  match self.database with
  | none => (.unwrapped (.attributeError "database"), [])
  | some db =>
    let msg : List PyData :=
      [.str "object", .str "execute", .str db, uid, upasswd, osv_name, method] ++ args
    (match rpc msg with
     | .ok v => .ok v
     | .error exc => .typed (.executeError exc), [msg])

/-- `_ConnectorNetRPC.exec_workflow(uid, upasswd, osv_name, signal,
obj_id)`: `self._request('object', 'exec_workflow', self.database, uid,
upasswd, osv_name, signal, obj_id)`; `netrpc.NetRPCError` becomes the
fixed-message `ExecWorkflowError`. -/
def exec_workflow (self : Connector) (rpc : List PyData → Except String PyData)
    (uid upasswd osv_name signal obj_id : PyData) :
    CallResult PyData × List (List PyData) :=
  match self.database with
  | none => (.unwrapped (.attributeError "database"), [])
  | some db =>
    let msg : List PyData :=
      [.str "object", .str "exec_workflow", .str db, uid, upasswd, osv_name, signal, obj_id]
    (match rpc msg with
     | .ok v => .ok v
     | .error _exc => .typed (.execWorkflowError workflowErrMsg), [msg])

/-- The `except` clause wrapped around each status poll of
`_ConnectorNetRPC.report` (lines 221-226): every `netrpc.NetRPCError`
becomes the generic download `ExecReportError`. -/
def pollExcept (_exc : String) : CallResult Payload :=
  .typed (.execReportError downloadErrMsg)

/-- `_ConnectorNetRPC.report(uid, upasswd, report_name, osv_name, obj_id,
report_type='pdf', context=None)`: defaults `context` to `{}`, builds the
`data` dict, submits via `self._request('report', 'report', self.database,
uid, upasswd, report_name, [obj_id], data, context)` (a `NetRPCError`
becomes `ExecReportError(unicode(exc))`), then runs the polling loop; each
poll sends `('report', 'report_get', self.database, uid, upasswd,
report_id)`.  Returns the instrumented loop result and the list of tuples
passed to `_request`. -/
def report (self : Connector) (rpc : List PyData → Except String PyData)
    (rpc_report_get : Nat → Except String Payload)
    (uid upasswd report_name osv_name obj_id report_type : PyData)
    (context : Option PyData) : LoopOut × List (List PyData) :=
  let ctx := context.getD (PyData.dict [])
  let data := PyData.dict [("model", osv_name), ("id", obj_id), ("report_type", report_type)]
  match self.database with
  | none => (⟨.unwrapped (.attributeError "database"), 0, 0⟩, [])
  | some db =>
    let submitMsg : List PyData :=
      [.str "report", .str "report", .str db, uid, upasswd, report_name, .list [obj_id], data, ctx]
    match rpc submitMsg with
    | .error exc => (⟨.typed (.execReportError exc), 0, 0⟩, [submitMsg])
    | .ok report_id =>
      let pollMsg : List PyData := [.str "report", .str "report_get", .str db, uid, upasswd, report_id]
      let r := reportPollLoop pollExcept rpc_report_get 0 0
      (r, submitMsg :: List.replicate r.polls pollMsg)

end ConnectorNetRPC

/-!
General lemmas about the shared polling loop, used to settle the claims
about both `report` implementations.
-/

theorem reportPollLoop_err {ε : Type} (h : ε → CallResult Payload)
    (report_get : Nat → Except ε Payload) (i attempt : Nat) (e : ε)
    (he : report_get i = .error e) :
    reportPollLoop h report_get i attempt = ⟨h e, 1, 0⟩ := by
  unfold reportPollLoop
  rw [he]

theorem reportPollLoop_run {ε : Type} (h : ε → CallResult Payload)
    (report_get : Nat → Except ε Payload) :
    ∀ (N i attempt : Nat), attempt + N ≤ 200 →
    (∀ k, k < N → ∃ p, report_get (i + k) = .ok p ∧ p.state = false) →
    ∀ q, report_get (i + N) = .ok q → q.state = true →
    reportPollLoop h report_get i attempt = ⟨.ok q, N + 1, N⟩ := by
  intro N
  induction N with
  | zero =>
    intro i attempt hle _ q hq hs
    rw [Nat.add_zero] at hq
    unfold reportPollLoop
    rw [hq]
    simp only [hs, if_true]
    rw [if_neg (by omega)]
  | succ n ih =>
    intro i attempt hle hfal q hq hs
    obtain ⟨p0, hp0, hp0s⟩ := hfal 0 (Nat.succ_pos n)
    rw [Nat.add_zero] at hp0
    unfold reportPollLoop
    rw [hp0]
    simp only [hp0s, Bool.false_eq_true, if_false]
    rw [dif_neg (by omega)]
    have hrec := ih (i + 1) (attempt + 1) (by omega)
      (fun k hk => by
        have hx := hfal (k + 1) (by omega)
        rwa [show i + (k + 1) = i + 1 + k by omega] at hx)
      q (by rwa [show i + (n + 1) = i + 1 + n by omega] at hq) hs
    rw [hrec]

theorem reportPollLoop_timeout {ε : Type} (h : ε → CallResult Payload)
    (report_get : Nat → Except ε Payload)
    (hfal : ∀ k, ∃ p, report_get k = .ok p ∧ p.state = false) :
    ∀ (fuel i attempt : Nat), attempt + fuel = 200 →
    reportPollLoop h report_get i attempt =
      ⟨.typed (.execReportError timeoutMsg), fuel + 1, fuel + 1⟩ := by
  intro fuel
  induction fuel with
  | zero =>
    intro i attempt ha
    obtain ⟨p, hp, hps⟩ := hfal i
    unfold reportPollLoop
    rw [hp]
    simp only [hps, Bool.false_eq_true, if_false]
    rw [dif_pos (by omega)]
  | succ n ih =>
    intro i attempt ha
    obtain ⟨p, hp, hps⟩ := hfal i
    unfold reportPollLoop
    rw [hp]
    simp only [hps, Bool.false_eq_true, if_false]
    rw [dif_neg (by omega)]
    rw [ih (i + 1) (attempt + 1) (by omega)]

theorem reportPollLoop_polls_le {ε : Type} (h : ε → CallResult Payload)
    (report_get : Nat → Except ε Payload) :
    ∀ (fuel i attempt : Nat), attempt ≤ 200 → 200 - attempt ≤ fuel →
    (reportPollLoop h report_get i attempt).polls ≤ 201 - attempt := by
  intro fuel
  induction fuel with
  | zero =>
    intro i attempt h200 hf
    unfold reportPollLoop
    split
    · simp; omega
    · split
      · split
        · simp; omega
        · simp; omega
      · split
        · simp; omega
        · omega
  | succ n ih =>
    intro i attempt h200 hf
    unfold reportPollLoop
    split
    · simp; omega
    · split
      · split
        · simp; omega
        · simp; omega
      · split
        · simp; omega
        · rename_i hnot
          have := ih (i + 1) (attempt + 1) (by omega) (by omega)
          simp only [LoopOut.polls] at this ⊢
          omega

theorem reportPollLoop_ok_state {ε : Type} (h : ε → CallResult Payload)
    (report_get : Nat → Except ε Payload)
    (hh : ∀ e q, h e ≠ CallResult.ok q) :
    ∀ (fuel i attempt : Nat), 200 - attempt ≤ fuel →
    ∀ q n s, reportPollLoop h report_get i attempt = ⟨.ok q, n, s⟩ → q.state = true := by
  intro fuel
  induction fuel with
  | zero =>
    intro i attempt hf q n s heq
    unfold reportPollLoop at heq
    split at heq
    · rename_i e _
      exact absurd (congrArg LoopOut.result heq) (hh e q)
    · split at heq
      · split at heq
        · simp at heq
        · rename_i hst _
          cases heq
          exact hst
      · split at heq
        · simp at heq
        · omega
  | succ m ih =>
    intro i attempt hf q n s heq
    unfold reportPollLoop at heq
    split at heq
    · rename_i e _
      exact absurd (congrArg LoopOut.result heq) (hh e q)
    · split at heq
      · split at heq
        · simp at heq
        · rename_i hst _
          cases heq
          exact hst
      · split at heq
        · simp at heq
        · rename_i hnot
          have hres := congrArg LoopOut.result heq
          simp only [LoopOut.result] at hres
          refine ih (i + 1) (attempt + 1) (by omega) q
            (reportPollLoop h report_get (i + 1) (attempt + 1)).polls
            (reportPollLoop h report_get (i + 1) (attempt + 1)).sleeps ?_
          cases hrec : reportPollLoop h report_get (i + 1) (attempt + 1)
          rw [hrec] at hres
          simp only [LoopOut.result] at hres
          simp [hres]

/-- The identifier `pat` occurs verbatim inside the string `s`. -/
def mentions (s pat : String) : Prop := List.IsInfix pat.data s.data

theorem mentions_append_left (A B pat : String) (h : mentions B pat) :
    mentions (A ++ B) pat := by
  unfold mentions at *
  rw [String.data_append]
  exact h.trans (List.suffix_append _ _).isInfix

set_option maxRecDepth 4000 in
theorem badProtocolMsg_mentions (protocol : String) :
    mentions (badProtocolMsg protocol) "xmlrpc" ∧ mentions (badProtocolMsg protocol) "netrpc" := by
  unfold badProtocolMsg
  constructor
  · exact mentions_append_left _ _ _ (by unfold mentions; decide)
  · exact mentions_append_left _ _ _ (by unfold mentions; decide)

/-- C5: for every protocol identifier outside the registered set
`{"xmlrpc", "netrpc"}`, `get_connector` fails with a `ConnectorError` whose
message mentions both valid identifiers; for each registered identifier it
only delegates to the corresponding class constructor with the given
server and port. -/
theorem C5_get_connector_dispatch :
    (∀ (server : String) (port : PyVal) (protocol : String),
      protocol ≠ "xmlrpc" → protocol ≠ "netrpc" →
      get_connector server port protocol =
        .error (.connectorError (badProtocolMsg protocol)) ∧
      mentions (badProtocolMsg protocol) "xmlrpc" ∧
      mentions (badProtocolMsg protocol) "netrpc") ∧
    (∀ (server : String) (port : PyVal),
      get_connector server port "xmlrpc" = Connector.init .xmlrpc server port ∧
      get_connector server port "netrpc" = Connector.init .netrpc server port) := by
  constructor
  · intro server port protocol h1 h2
    refine ⟨?_, badProtocolMsg_mentions protocol⟩
    unfold get_connector
    rw [if_neg h1, if_neg h2]
  · intro server port
    exact ⟨rfl, rfl⟩

/-- Witness for C5 at the concrete unregistered identifier "socketrpc". -/
theorem C5_witness :
    ("socketrpc" : String) ≠ "xmlrpc" ∧ ("socketrpc" : String) ≠ "netrpc" ∧
    (get_connector "localhost" (.int 8070) "socketrpc" =
        .error (.connectorError (badProtocolMsg "socketrpc")) ∧
      mentions (badProtocolMsg "socketrpc") "xmlrpc" ∧
      mentions (badProtocolMsg "socketrpc") "netrpc") ∧
    get_connector "localhost" (.int 8069) "xmlrpc" =
      Connector.init .xmlrpc "localhost" (.int 8069) :=
  ⟨by decide, by decide,
   C5_get_connector_dispatch.1 "localhost" (.int 8070) "socketrpc" (by decide) (by decide),
   (C5_get_connector_dispatch.2 "localhost" (.int 8069)).1⟩

/-- C6: a port on which `int()` fails makes construction — through either
variant's constructor, and hence through `get_connector` — fail with
`ConnectorError`; an integer-convertible port constructs successfully and
the original port value is stored on the connector. -/
theorem C6_port_validation :
    (∀ (v : Variant) (server : String) (port : PyVal), pyToInt port = none →
      Connector.init v server port = .error (.connectorError
        ("The port '" ++ pyStr port ++ "' is invalid. An integer is required.")) ∧
      get_connector server port "xmlrpc" = .error (.connectorError
        ("The port '" ++ pyStr port ++ "' is invalid. An integer is required.")) ∧
      get_connector server port "netrpc" = .error (.connectorError
        ("The port '" ++ pyStr port ++ "' is invalid. An integer is required."))) ∧
    (∀ (v : Variant) (server : String) (port : PyVal) (k : Int), pyToInt port = some k →
      Connector.init v server port =
        .ok { variant := v, server := server, port := port, database := none }) := by
  constructor
  · intro v server port h
    refine ⟨?_, ?_, ?_⟩ <;> simp [Connector.init, get_connector, h]
  · intro v server port k h
    simp [Connector.init, h]

/-- Witness for C6 at the concrete ports "8069a" (invalid) and " 8070 "
(integer-convertible after whitespace stripping). -/
theorem C6_witness :
    pyToInt (.str "8069a") = none ∧
    Connector.init .xmlrpc "localhost" (.str "8069a") = .error (.connectorError
      ("The port '" ++ pyStr (.str "8069a") ++ "' is invalid. An integer is required.")) ∧
    pyToInt (.str " 8070 ") = some 8070 ∧
    Connector.init .netrpc "localhost" (.str " 8070 ") =
      .ok { variant := .netrpc, server := "localhost", port := .str " 8070 ", database := none } :=
  ⟨by decide,
   (C6_port_validation.1 .xmlrpc "localhost" (.str "8069a") (by decide)).1,
   by decide,
   C6_port_validation.2 .netrpc "localhost" (.str " 8070 ") 8070 (by decide)⟩

/-- C7: in both variants every failure of the underlying call during
`exec_workflow` — in the XMLRPC variant any exception at all (bare
`except Exception`), in the NetRPC variant any `NetRPCError` — raises
`ExecWorkflowError` with the single fixed message "Workflow query has
failed.", independent of the cause. -/
theorem C7_exec_workflow_opaque :
    (∀ (self : Connector) (sock : List PyData → Except PyExc PyData)
        (uid upasswd osv_name signal obj_id : PyData),
      (∀ xs, ∃ e, sock xs = .error e) →
      ConnectorXMLRPC.exec_workflow self sock uid upasswd osv_name signal obj_id =
        .typed (.execWorkflowError workflowErrMsg)) ∧
    (∀ (self : Connector) (db : String) (rpc : List PyData → Except String PyData)
        (uid upasswd osv_name signal obj_id : PyData),
      self.database = some db →
      (∀ xs, ∃ e, rpc xs = .error e) →
      (ConnectorNetRPC.exec_workflow self rpc uid upasswd osv_name signal obj_id).1 =
        .typed (.execWorkflowError workflowErrMsg)) := by
  constructor
  · intro self sock uid upasswd osv_name signal obj_id hfail
    unfold ConnectorXMLRPC.exec_workflow
    cases hdb : self.database with
    | none => rfl
    | some db =>
      obtain ⟨e, he⟩ := hfail [.str db, uid, upasswd, osv_name, signal, obj_id]
      simp [he]
  · intro self db rpc uid upasswd osv_name signal obj_id hdb hfail
    unfold ConnectorNetRPC.exec_workflow
    rw [hdb]
    obtain ⟨e, he⟩ :=
      hfail [.str "object", .str "exec_workflow", .str db, uid, upasswd, osv_name, signal, obj_id]
    simp [he]

/-- Witness for C7: concrete connectors and always-failing transports. -/
theorem C7_witness :
    (∀ xs, ∃ e, (fun (_ : List PyData) => (.error (.socketError "Connection refused") : Except PyExc PyData)) xs = .error e) ∧
    ConnectorXMLRPC.exec_workflow
      { variant := .xmlrpc, server := "localhost", port := .int 8069, database := some "db" }
      (fun _ => .error (.socketError "Connection refused"))
      (.int 1) (.str "pw") (.str "sale.order") (.str "order_confirm") (.int 4) =
      .typed (.execWorkflowError workflowErrMsg) ∧
    (ConnectorNetRPC.exec_workflow
      { variant := .netrpc, server := "localhost", port := .int 8070, database := some "db" }
      (fun _ => .error "NetRPCError: fault")
      (.int 1) (.str "pw") (.str "sale.order") (.str "order_confirm") (.int 4)).1 =
      .typed (.execWorkflowError workflowErrMsg) :=
  ⟨fun _xs => ⟨.socketError "Connection refused", rfl⟩,
   C7_exec_workflow_opaque.1 _ _ _ _ _ _ _ (fun _xs => ⟨.socketError "Connection refused", rfl⟩),
   C7_exec_workflow_opaque.2 _ "db" _ _ _ _ _ _ rfl (fun _xs => ⟨"NetRPCError: fault", rfl⟩)⟩

/-- C10: in both variants `login` assigns the `database` attribute before
the remote authentication call, so the connector state after `login` is
`{ self with database := some db }` regardless of the call's outcome, and
a subsequent `execute` behaves identically whether that login attempt
succeeded or failed: it uses the database name of the most recent login
attempt. -/
theorem C10_login_mutates_database_even_on_failure :
    (∀ (self : Connector) (sock : List PyData → Except PyExc PyData) (db u p : String),
      (ConnectorXMLRPC.login self sock db u p).2 = { self with database := some db }) ∧
    (∀ (self : Connector) (rpc : List PyData → Except String PyData) (db u p : String),
      (ConnectorNetRPC.login self rpc db u p).2.1 = { self with database := some db }) ∧
    (∀ (self : Connector) (sockFail sockOk : List PyData → Except PyExc PyData)
        (db u p : String) (sock2 : List PyData → Except PyExc PyData)
        (uid upasswd osv_name method : PyData) (args : List PyData),
      ConnectorXMLRPC.execute (ConnectorXMLRPC.login self sockFail db u p).2
          sock2 uid upasswd osv_name method args =
        ConnectorXMLRPC.execute (ConnectorXMLRPC.login self sockOk db u p).2
          sock2 uid upasswd osv_name method args) ∧
    (∀ (self : Connector) (rpcFail rpcOk : List PyData → Except String PyData)
        (db u p : String) (rpc2 : List PyData → Except String PyData)
        (uid upasswd osv_name method : PyData) (args : List PyData),
      ConnectorNetRPC.execute (ConnectorNetRPC.login self rpcFail db u p).2.1
          rpc2 uid upasswd osv_name method args =
        ConnectorNetRPC.execute (ConnectorNetRPC.login self rpcOk db u p).2.1
          rpc2 uid upasswd osv_name method args) :=
  ⟨fun _ _ _ _ _ => rfl, fun _ _ _ _ _ => rfl,
   fun _ _ _ _ _ _ _ _ _ _ _ _ => rfl, fun _ _ _ _ _ _ _ _ _ _ _ _ => rfl⟩

/-- C9 amended: on a connector on which `login` was never called (no
`database` attribute), `execute` and `report` in both variants and
`exec_workflow` in the NetRPC variant raise the untyped `AttributeError`;
but in the XMLRPC variant `exec_workflow`'s bare `except Exception`
catches that `AttributeError` and raises the typed `ExecWorkflowError`
instead. -/
theorem C9_no_login_failures (c : Connector) (hdb : c.database = none) :
    (∀ (sock : List PyData → Except PyExc PyData)
        (uid upasswd osv_name method : PyData) (args : List PyData),
      ConnectorXMLRPC.execute c sock uid upasswd osv_name method args =
        .unwrapped (.attributeError "database")) ∧
    (∀ (submit : List PyData → Except PyExc PyData) (polls : Nat → Except PyExc Payload)
        (uid upasswd report_name osv_name obj_id report_type : PyData)
        (context : Option PyData),
      ConnectorXMLRPC.report c submit polls uid upasswd report_name osv_name obj_id
          report_type context =
        ⟨.unwrapped (.attributeError "database"), 0, 0⟩) ∧
    (∀ (sock : List PyData → Except PyExc PyData) (uid upasswd osv_name signal obj_id : PyData),
      ConnectorXMLRPC.exec_workflow c sock uid upasswd osv_name signal obj_id =
        .typed (.execWorkflowError workflowErrMsg)) ∧
    (∀ (rpc : List PyData → Except String PyData)
        (uid upasswd osv_name method : PyData) (args : List PyData),
      ConnectorNetRPC.execute c rpc uid upasswd osv_name method args =
        (.unwrapped (.attributeError "database"), [])) ∧
    (∀ (rpc : List PyData → Except String PyData) (uid upasswd osv_name signal obj_id : PyData),
      ConnectorNetRPC.exec_workflow c rpc uid upasswd osv_name signal obj_id =
        (.unwrapped (.attributeError "database"), [])) ∧
    (∀ (rpc : List PyData → Except String PyData) (rg : Nat → Except String Payload)
        (uid upasswd report_name osv_name obj_id report_type : PyData)
        (context : Option PyData),
      ConnectorNetRPC.report c rpc rg uid upasswd report_name osv_name obj_id
          report_type context =
        (⟨.unwrapped (.attributeError "database"), 0, 0⟩, [])) := by
  refine ⟨?_, ?_, ?_, ?_, ?_, ?_⟩ <;> intros <;>
    simp [ConnectorXMLRPC.execute, ConnectorXMLRPC.report, ConnectorXMLRPC.exec_workflow,
      ConnectorNetRPC.execute, ConnectorNetRPC.exec_workflow, ConnectorNetRPC.report,
      PyExc.isXmlrpcError, PyExc.isSocketError, PyExc.isFault, hdb]

/-- C9 counterexample: on a fresh XMLRPC connector with no prior `login`,
`exec_workflow` fails with the typed `ExecWorkflowError`, not with the
untyped attribute-access error the claim asserts for all three
operations. -/
theorem C9_counterexample :
    ConnectorXMLRPC.exec_workflow
        { variant := .xmlrpc, server := "localhost", port := .int 8069, database := none }
        (fun _ => .ok (.bool true)) (.int 1) (.str "pw") (.str "sale.order")
        (.str "order_confirm") (.int 4) =
      .typed (.execWorkflowError workflowErrMsg) ∧
    ConnectorXMLRPC.exec_workflow
        { variant := .xmlrpc, server := "localhost", port := .int 8069, database := none }
        (fun _ => .ok (.bool true)) (.int 1) (.str "pw") (.str "sale.order")
        (.str "order_confirm") (.int 4) ≠
      .unwrapped (.attributeError "database") := by
  constructor
  · rfl
  · intro h
    rw [(rfl : ConnectorXMLRPC.exec_workflow
        { variant := .xmlrpc, server := "localhost", port := .int 8069, database := none }
        (fun _ => .ok (.bool true)) (.int 1) (.str "pw") (.str "sale.order")
        (.str "order_confirm") (.int 4) =
      .typed (.execWorkflowError workflowErrMsg))] at h
    exact CallResult.noConfusion h

/-- Witness for C9 at a concrete fresh connector. -/
theorem C9_witness :
    ({ variant := .xmlrpc, server := "localhost", port := .int 8069,
        database := none } : Connector).database = none ∧
    ConnectorXMLRPC.execute
        { variant := .xmlrpc, server := "localhost", port := .int 8069, database := none }
        (fun _ => .ok (.int 0)) (.int 1) (.str "pw") (.str "res.partner") (.str "read")
        [.int 42] =
      .unwrapped (.attributeError "database") ∧
    (ConnectorNetRPC.report
        { variant := .netrpc, server := "localhost", port := .int 8070, database := none }
        (fun _ => .ok (.int 3)) (fun _ => .ok ⟨true, "PDF"⟩) (.int 1) (.str "pw")
        (.str "sale.order") (.str "sale.order") (.int 4) (.str "pdf") none) =
      (⟨.unwrapped (.attributeError "database"), 0, 0⟩, []) :=
  ⟨rfl,
   (C9_no_login_failures _ rfl).1 _ _ _ _ _ _,
   (C9_no_login_failures _ rfl).2.2.2.2.2 _ _ _ _ _ _ _ _ _⟩

/-- C3 (failing input): XMLRPC variant, successful submission, then a
socket-level transport failure on the very first status poll.  The poll
loop's `except xmlrpclib.Error` does not cover `socket.error`, so `report`
propagates the socket error unwrapped instead of raising the generic
`ExecReportError` that the claim (and `report`'s docstring) promise.
Exactly one poll is performed. -/
theorem C3_poll_socket_error_escapes :
    ConnectorXMLRPC.report
        { variant := .xmlrpc, server := "localhost", port := .int 8069, database := some "db" }
        (fun _ => .ok (.int 5))
        (fun _ => .error (.socketError "Connection reset by peer"))
        (.int 1) (.str "pw") (.str "sale.order") (.str "sale.order") (.int 4) (.str "pdf")
        none =
      ⟨.unwrapped (.socketError "Connection reset by peer"), 1, 0⟩ := by
  unfold ConnectorXMLRPC.report
  rw [reportPollLoop_err ConnectorXMLRPC.pollExcept _ 0 0
    (.socketError "Connection reset by peer") rfl]
  rfl

/-- C4 (failing input): XMLRPC variant, socket-level transport failure
during report submission.  `report`'s `except xmlrpclib.Error` does not
cover `socket.error`, so the transport exception propagates unwrapped
rather than being mapped to `ExecReportError`; no poll is performed. -/
theorem C4_submit_socket_error_escapes :
    ConnectorXMLRPC.report
        { variant := .xmlrpc, server := "localhost", port := .int 8069, database := some "db" }
        (fun _ => .error (.socketError "Connection refused"))
        (fun _ => .ok ⟨true, "PDF"⟩)
        (.int 1) (.str "pw") (.str "sale.order") (.str "sale.order") (.int 4) (.str "pdf")
        none =
      ⟨.unwrapped (.socketError "Connection refused"), 0, 0⟩ := by
  rfl

theorem xmlrpcPollExcept_ne_ok (e : PyExc) (q : Payload) :
    ConnectorXMLRPC.pollExcept e ≠ .ok q := by
  unfold ConnectorXMLRPC.pollExcept
  split <;> simp

theorem netrpcPollExcept_ne_ok (e : String) (q : Payload) :
    ConnectorNetRPC.pollExcept e ≠ .ok q := by
  simp [ConnectorNetRPC.pollExcept]

/-- C1: in both connector variants, when report submission succeeds and
the status poll yields a falsy-state payload on each of the first N polls
(N ≤ 200) and a truthy-state payload q on poll N+1, `report` performs
exactly N+1 status-poll calls with one fixed-interval sleep between
consecutive polls (N sleeps), and returns the final payload q unchanged;
and a `report` call never returns successfully while the state is falsy:
every successful return carries a truthy-state payload. -/
theorem C1_report_polls_until_ready :
    (∀ (self : Connector) (db : String), self.database = some db →
     ∀ (submit : List PyData → Except PyExc PyData) (rid : PyData),
      (∀ xs, submit xs = .ok rid) →
     ∀ (polls : Nat → Except PyExc Payload) (N : Nat), N ≤ 200 →
      (∀ k, k < N → ∃ p, polls k = .ok p ∧ p.state = false) →
     ∀ (q : Payload), polls N = .ok q → q.state = true →
     ∀ (uid upasswd report_name osv_name obj_id report_type : PyData)
       (context : Option PyData),
      ConnectorXMLRPC.report self submit polls uid upasswd report_name osv_name obj_id
          report_type context = ⟨.ok q, N + 1, N⟩) ∧
    (∀ (self : Connector) (db : String), self.database = some db →
     ∀ (rpc : List PyData → Except String PyData) (rid : PyData),
      (∀ xs, rpc xs = .ok rid) →
     ∀ (rg : Nat → Except String Payload) (N : Nat), N ≤ 200 →
      (∀ k, k < N → ∃ p, rg k = .ok p ∧ p.state = false) →
     ∀ (q : Payload), rg N = .ok q → q.state = true →
     ∀ (uid upasswd report_name osv_name obj_id report_type : PyData)
       (context : Option PyData),
      (ConnectorNetRPC.report self rpc rg uid upasswd report_name osv_name obj_id
          report_type context).1 = ⟨.ok q, N + 1, N⟩) ∧
    (∀ (self : Connector) (submit : List PyData → Except PyExc PyData)
       (polls : Nat → Except PyExc Payload)
       (uid upasswd report_name osv_name obj_id report_type : PyData)
       (context : Option PyData) (q : Payload) (n s : Nat),
      ConnectorXMLRPC.report self submit polls uid upasswd report_name osv_name obj_id
          report_type context = ⟨.ok q, n, s⟩ → q.state = true) ∧
    (∀ (self : Connector) (rpc : List PyData → Except String PyData)
       (rg : Nat → Except String Payload)
       (uid upasswd report_name osv_name obj_id report_type : PyData)
       (context : Option PyData) (q : Payload) (n s : Nat),
      (ConnectorNetRPC.report self rpc rg uid upasswd report_name osv_name obj_id
          report_type context).1 = ⟨.ok q, n, s⟩ → q.state = true) := by
  refine ⟨?_, ?_, ?_, ?_⟩
  · intro self db hdb submit rid hsub polls N hN hfal q hq hqs
      uid upasswd report_name osv_name obj_id report_type context
    simp only [ConnectorXMLRPC.report, hdb, hsub]
    exact reportPollLoop_run ConnectorXMLRPC.pollExcept polls N 0 0 (by omega)
      (fun k hk => by simpa using hfal k hk) q (by simpa using hq) hqs
  · intro self db hdb rpc rid hsub rg N hN hfal q hq hqs
      uid upasswd report_name osv_name obj_id report_type context
    simp only [ConnectorNetRPC.report, hdb, hsub]
    exact reportPollLoop_run ConnectorNetRPC.pollExcept rg N 0 0 (by omega)
      (fun k hk => by simpa using hfal k hk) q (by simpa using hq) hqs
  · intro self submit polls uid upasswd report_name osv_name obj_id report_type context
      q n s heq
    simp only [ConnectorXMLRPC.report] at heq
    split at heq
    · split at heq <;> simp at heq
    · exact reportPollLoop_ok_state ConnectorXMLRPC.pollExcept polls
        xmlrpcPollExcept_ne_ok 200 0 0 (by omega) q n s heq
  · intro self rpc rg uid upasswd report_name osv_name obj_id report_type context
      q n s heq
    simp only [ConnectorNetRPC.report] at heq
    split at heq
    · simp at heq
    · split at heq
      · simp at heq
      · simp only [] at heq
        exact reportPollLoop_ok_state ConnectorNetRPC.pollExcept rg
          netrpcPollExcept_ne_ok 200 0 0 (by omega) q n s heq



/-- Witness for C1: N = 1, one falsy poll then a truthy poll, in both
variants. -/
theorem C1_witness :
    ({ variant := .xmlrpc, server := "localhost", port := .int 8069,
        database := some "db" } : Connector).database = some "db" ∧
    (1 : Nat) ≤ 200 ∧
    ConnectorXMLRPC.report
        { variant := .xmlrpc, server := "localhost", port := .int 8069, database := some "db" }
        (fun _ => .ok (.int 7))
        (fun i => if i = 0 then .ok ⟨false, ""⟩ else .ok ⟨true, "PDF"⟩)
        (.int 1) (.str "pw") (.str "sale.order") (.str "sale.order") (.int 4) (.str "pdf")
        none =
      ⟨.ok ⟨true, "PDF"⟩, 2, 1⟩ ∧
    (ConnectorNetRPC.report
        { variant := .netrpc, server := "localhost", port := .int 8070, database := some "db" }
        (fun _ => .ok (.int 7))
        (fun i => if i = 0 then .ok ⟨false, ""⟩ else .ok ⟨true, "PDF"⟩)
        (.int 1) (.str "pw") (.str "sale.order") (.str "sale.order") (.int 4) (.str "pdf")
        none).1 =
      ⟨.ok ⟨true, "PDF"⟩, 2, 1⟩ := by
  refine ⟨rfl, by decide, ?_, ?_⟩
  · exact C1_report_polls_until_ready.1 _ "db" rfl _ (.int 7) (fun _ => rfl) _ 1 (by decide)
      (fun k hk => by interval_cases k; exact ⟨⟨false, ""⟩, rfl, rfl⟩)
      ⟨true, "PDF"⟩ rfl rfl (.int 1) (.str "pw") (.str "sale.order") (.str "sale.order")
      (.int 4) (.str "pdf") none
  · exact C1_report_polls_until_ready.2.1 _ "db" rfl _ (.int 7) (fun _ => rfl) _ 1 (by decide)
      (fun k hk => by interval_cases k; exact ⟨⟨false, ""⟩, rfl, rfl⟩)
      ⟨true, "PDF"⟩ rfl rfl (.int 1) (.str "pw") (.str "sale.order") (.str "sale.order")
      (.int 4) (.str "pdf") none

/-- C2: in both variants, when every status poll returns a falsy-state
payload, `report` terminates by raising the timeout `ExecReportError`
("Download time exceeded, the operation has been canceled.") after exactly
201 status polls — the attempt counter increases by one per non-ready poll
and the loop aborts once it exceeds 200 — returning no payload; and on any
inputs whatsoever a `report` call performs at most 201 status polls. -/
theorem C2_report_timeout_bounded :
    (∀ (self : Connector) (db : String), self.database = some db →
     ∀ (submit : List PyData → Except PyExc PyData) (rid : PyData),
      (∀ xs, submit xs = .ok rid) →
     ∀ (polls : Nat → Except PyExc Payload),
      (∀ k, ∃ p, polls k = .ok p ∧ p.state = false) →
     ∀ (uid upasswd report_name osv_name obj_id report_type : PyData)
       (context : Option PyData),
      ConnectorXMLRPC.report self submit polls uid upasswd report_name osv_name obj_id
          report_type context = ⟨.typed (.execReportError timeoutMsg), 201, 201⟩) ∧
    (∀ (self : Connector) (db : String), self.database = some db →
     ∀ (rpc : List PyData → Except String PyData) (rid : PyData),
      (∀ xs, rpc xs = .ok rid) →
     ∀ (rg : Nat → Except String Payload),
      (∀ k, ∃ p, rg k = .ok p ∧ p.state = false) →
     ∀ (uid upasswd report_name osv_name obj_id report_type : PyData)
       (context : Option PyData),
      (ConnectorNetRPC.report self rpc rg uid upasswd report_name osv_name obj_id
          report_type context).1 = ⟨.typed (.execReportError timeoutMsg), 201, 201⟩) ∧
    (∀ (self : Connector) (submit : List PyData → Except PyExc PyData)
       (polls : Nat → Except PyExc Payload)
       (uid upasswd report_name osv_name obj_id report_type : PyData)
       (context : Option PyData),
      (ConnectorXMLRPC.report self submit polls uid upasswd report_name osv_name obj_id
          report_type context).polls ≤ 201) ∧
    (∀ (self : Connector) (rpc : List PyData → Except String PyData)
       (rg : Nat → Except String Payload)
       (uid upasswd report_name osv_name obj_id report_type : PyData)
       (context : Option PyData),
      ((ConnectorNetRPC.report self rpc rg uid upasswd report_name osv_name obj_id
          report_type context).1).polls ≤ 201) := by
  refine ⟨?_, ?_, ?_, ?_⟩
  · intro self db hdb submit rid hsub polls hfal
      uid upasswd report_name osv_name obj_id report_type context
    simp only [ConnectorXMLRPC.report, hdb, hsub]
    exact reportPollLoop_timeout ConnectorXMLRPC.pollExcept polls hfal 200 0 0 (by omega)
  · intro self db hdb rpc rid hsub rg hfal
      uid upasswd report_name osv_name obj_id report_type context
    simp only [ConnectorNetRPC.report, hdb, hsub]
    exact reportPollLoop_timeout ConnectorNetRPC.pollExcept rg hfal 200 0 0 (by omega)
  · intro self submit polls uid upasswd report_name osv_name obj_id report_type context
    simp only [ConnectorXMLRPC.report]
    split
    · split <;> simp
    · have := reportPollLoop_polls_le ConnectorXMLRPC.pollExcept polls 200 0 0
        (by omega) (by omega)
      omega
  · intro self rpc rg uid upasswd report_name osv_name obj_id report_type context
    simp only [ConnectorNetRPC.report]
    split
    · simp
    · split
      · simp
      · simp only []
        have := reportPollLoop_polls_le ConnectorNetRPC.pollExcept rg 200 0 0
          (by omega) (by omega)
        omega

/-- Witness for C2: a transport double whose polls all report a
not-yet-ready state, in both variants. -/
theorem C2_witness :
    ({ variant := .xmlrpc, server := "localhost", port := .int 8069,
        database := some "db" } : Connector).database = some "db" ∧
    ConnectorXMLRPC.report
        { variant := .xmlrpc, server := "localhost", port := .int 8069, database := some "db" }
        (fun _ => .ok (.int 7)) (fun _ => .ok ⟨false, ""⟩)
        (.int 1) (.str "pw") (.str "sale.order") (.str "sale.order") (.int 4) (.str "pdf")
        none =
      ⟨.typed (.execReportError timeoutMsg), 201, 201⟩ ∧
    (ConnectorNetRPC.report
        { variant := .netrpc, server := "localhost", port := .int 8070, database := some "db" }
        (fun _ => .ok (.int 7)) (fun _ => .ok ⟨false, ""⟩)
        (.int 1) (.str "pw") (.str "sale.order") (.str "sale.order") (.int 4) (.str "pdf")
        none).1 =
      ⟨.typed (.execReportError timeoutMsg), 201, 201⟩ := by
  refine ⟨rfl, ?_, ?_⟩
  · exact C2_report_timeout_bounded.1 _ "db" rfl _ (.int 7) (fun _ => rfl) _
      (fun _ => ⟨⟨false, ""⟩, rfl, rfl⟩) (.int 1) (.str "pw") (.str "sale.order")
      (.str "sale.order") (.int 4) (.str "pdf") none
  · exact C2_report_timeout_bounded.2.1 _ "db" rfl _ (.int 7) (fun _ => rfl) _
      (fun _ => ⟨⟨false, ""⟩, rfl, rfl⟩) (.int 1) (.str "pw") (.str "sale.order")
      (.str "sale.order") (.int 4) (.str "pdf") none

/-- C8 counterexample: when `receive` raises inside `_request`, the
connection is not closed — there is no `finally` — so the claimed "one
connect/disconnect cycle per remote call on every exit path" fails: the
trace ends after the receive attempt with no disconnect event. -/
theorem C8_counterexample :
    ConnectorNetRPC.request
        { connectErr := none, sendErr := none,
          receiveResult := .error "Connection reset by peer" }
        "localhost" (.int 8070) "object" "execute" [] =
      (.error "Connection reset by peer",
        [.connect "localhost" (.int 8070), .send [.str "object", .str "execute"],
         .receive]) ∧
    ConnectorNetRPC.hasDisconnect
      (ConnectorNetRPC.request
        { connectErr := none, sendErr := none,
          receiveResult := .error "Connection reset by peer" }
        "localhost" (.int 8070) "object" "execute" []).2 = false :=
  ⟨rfl, rfl⟩

/-- C8 amended: on the success path each `_request` performs exactly one
connect, one send of the tuple `(service, method, ...)`, one receive and
one disconnect, in that order; when any step raises, the remaining steps —
disconnect included — are skipped, so the cycle completes only on success.
The operations pass exactly the claimed tuples: service `common` for
login, `object` for execute and exec_workflow, `report` for report
submission and for each of the status polls (one `report_get` tuple per
poll). -/
theorem C8_request_cycle_and_service_names :
    (∀ (t : ConnectorNetRPC.NetTransport) (server : String) (port : PyVal)
        (service method : String) (args : List PyData) (v : PyData),
      t.connectErr = none → t.sendErr = none → t.receiveResult = .ok v →
      ConnectorNetRPC.request t server port service method args =
        (.ok v, [.connect server port,
          .send (PyData.str service :: PyData.str method :: args), .receive,
          .disconnect])) ∧
    (∀ (t : ConnectorNetRPC.NetTransport) (server : String) (port : PyVal)
        (service method : String) (args : List PyData) (e : String),
      (ConnectorNetRPC.request t server port service method args).1 = .error e →
      ConnectorNetRPC.hasDisconnect
        (ConnectorNetRPC.request t server port service method args).2 = false) ∧
    (∀ (self : Connector) (rpc : List PyData → Except String PyData) (db u p : String),
      (ConnectorNetRPC.login self rpc db u p).2.2 =
        [[.str "common", .str "login", .str db, .str u, .str p]]) ∧
    (∀ (self : Connector) (db : String) (rpc : List PyData → Except String PyData)
        (uid upasswd osv_name method : PyData) (args : List PyData),
      self.database = some db →
      (ConnectorNetRPC.execute self rpc uid upasswd osv_name method args).2 =
        [[.str "object", .str "execute", .str db, uid, upasswd, osv_name, method] ++ args]) ∧
    (∀ (self : Connector) (db : String) (rpc : List PyData → Except String PyData)
        (uid upasswd osv_name signal obj_id : PyData),
      self.database = some db →
      (ConnectorNetRPC.exec_workflow self rpc uid upasswd osv_name signal obj_id).2 =
        [[.str "object", .str "exec_workflow", .str db, uid, upasswd, osv_name, signal,
          obj_id]]) ∧
    (∀ (self : Connector) (db : String) (rpc : List PyData → Except String PyData)
        (rg : Nat → Except String Payload)
        (uid upasswd report_name osv_name obj_id report_type : PyData)
        (context : Option PyData) (rid : PyData),
      self.database = some db →
      rpc [.str "report", .str "report", .str db, uid, upasswd, report_name,
        .list [obj_id],
        .dict [("model", osv_name), ("id", obj_id), ("report_type", report_type)],
        context.getD (PyData.dict [])] = .ok rid →
      (ConnectorNetRPC.report self rpc rg uid upasswd report_name osv_name obj_id
          report_type context).2 =
        [.str "report", .str "report", .str db, uid, upasswd, report_name,
          .list [obj_id],
          .dict [("model", osv_name), ("id", obj_id), ("report_type", report_type)],
          context.getD (PyData.dict [])] ::
        List.replicate
          ((ConnectorNetRPC.report self rpc rg uid upasswd report_name osv_name obj_id
            report_type context).1).polls
          [.str "report", .str "report_get", .str db, uid, upasswd, rid]) := by
  refine ⟨?_, ?_, ?_, ?_, ?_, ?_⟩
  · intro t server port service method args v h1 h2 h3
    simp [ConnectorNetRPC.request, h1, h2, h3]
  · intro t server port service method args e h1
    rcases t with ⟨ce, se, rr⟩
    cases ce with
    | some e' => rfl
    | none =>
      cases se with
      | some e' => rfl
      | none =>
        cases rr with
        | error e' => rfl
        | ok v => simp [ConnectorNetRPC.request] at h1
  · intro self rpc db u p
    rfl
  · intro self db rpc uid upasswd osv_name method args hdb
    simp only [ConnectorNetRPC.execute, hdb]
  · intro self db rpc uid upasswd osv_name signal obj_id hdb
    simp only [ConnectorNetRPC.exec_workflow, hdb]
  · intro self db rpc rg uid upasswd report_name osv_name obj_id report_type context rid
      hdb hsub
    simp only [ConnectorNetRPC.report, hdb, hsub]

/-- Witness for C8 at a concrete transport double and connector. -/
theorem C8_witness :
    ConnectorNetRPC.request
        { connectErr := none, sendErr := none, receiveResult := .ok (.int 1) }
        "localhost" (.int 8070) "common" "login" [.str "db", .str "admin", .str "pw"] =
      (.ok (.int 1),
        [.connect "localhost" (.int 8070),
         .send [.str "common", .str "login", .str "db", .str "admin", .str "pw"],
         .receive, .disconnect]) ∧
    (ConnectorNetRPC.execute
        { variant := .netrpc, server := "localhost", port := .int 8070, database := some "db" }
        (fun _ => .ok (.int 0)) (.int 1) (.str "pw") (.str "res.partner") (.str "read")
        [.int 42]).2 =
      [[.str "object", .str "execute", .str "db", .int 1, .str "pw", .str "res.partner",
        .str "read"] ++ [.int 42]] :=
  ⟨C8_request_cycle_and_service_names.1 _ "localhost" (.int 8070) "common" "login"
      [.str "db", .str "admin", .str "pw"] (.int 1) rfl rfl rfl,
   C8_request_cycle_and_service_names.2.2.2.1 _ "db" _ (.int 1) (.str "pw")
      (.str "res.partner") (.str "read") [.int 42] rfl⟩

end Oerplib
